import Mathlib

/-!
Verification of the real-time chat and notification subsystem of the
investor-connect platform (Django app `chat`: `consumers.py`,
`notification_consumer.py`, `views.py`, `models.py`).

The embedding is shallow: the Django ORM rows become Lean structures, the
database becomes explicit lists of rows, channel-layer and client I/O become
an explicit list of emitted `Effect`s, and `timezone.now()` becomes an
explicit `Time` parameter (seconds as `Nat`).  Display-only string fields
(usernames carried alongside user ids in broadcast payloads) are elided:
every event carries the user id the source derives the name from.
-/

namespace Chat

abbrev UserId := Nat
abbrev RoomId := Nat
abbrev MsgId := Nat
abbrev Time := Nat

/-- Row of `chat.models.ChatRoom` (pairing slots only; `related_pitch`,
`is_active` and the audit timestamps are not consulted by any verified path). -/
structure ChatRoom where
  id : RoomId
  investor : Option UserId
  regular_user : Option UserId
  participant_1 : Option UserId
  participant_2 : Option UserId
  deriving Repr, DecidableEq

/-- Row of `chat.models.ChatMessage` (file-attachment fields elided; the
verified paths only read/write the body, sender, room, timestamp and the
delivery-tracking flags). -/
structure ChatMessage where
  id : MsgId
  room : RoomId
  sender : UserId
  message : String
  timestamp : Time
  delivered : Bool
  delivered_at : Option Time
  read : Bool
  read_at : Option Time
  deriving Repr, DecidableEq

/-- Row of `chat.models.UserActivity`. -/
structure UserActivity where
  user : UserId
  last_seen : Time
  is_online : Bool
  current_chat_room : Option RoomId
  is_typing : Bool
  typing_in_room : Option RoomId
  deriving Repr, DecidableEq

/-- The persistent store: the three tables plus fresh-id counters standing in
for UUID generation.  New messages are appended (chronological insertion
order); new rooms are prepended (the model's `Meta.ordering` is
`-updated_at`, newest first). -/
structure DB where
  rooms : List ChatRoom
  msgs : List ChatMessage
  acts : List UserActivity
  nextRoom : RoomId
  nextMsg : MsgId
  deriving Repr, DecidableEq

def findRoom (db : DB) (rid : RoomId) : Option ChatRoom :=
  db.rooms.find? (fun r => r.id == rid)

def findAct (db : DB) (u : UserId) : Option UserActivity :=
  db.acts.find? (fun a => a.user == u)

def findMsg (db : DB) (mid : MsgId) : Option ChatMessage :=
  db.msgs.find? (fun m => m.id == mid)

/-- Group names used with the channel layer.  The source interpolates ids
into the strings `chat_<room_id>` and `notifications_<user_id>`; the two
namespaces never collide, so a tagged union is a faithful rendering. -/
inductive GroupName where
  | room (rid : RoomId)
  | notifications (uid : UserId)
  deriving Repr, DecidableEq

/-- Events published to a channel-layer group (`group_send` payloads,
keyed by their `type` field in the source). -/
inductive GEvent where
  | user_status_update (user_id : UserId) (is_online : Bool) (last_seen : Time)
  | broadcast_message (message : String) (sender_id : UserId) (timestamp : Time)
      (message_id : MsgId) (delivered : Bool) (read : Bool)
  | message_read_update (message_id : MsgId) (read_by_user_id : UserId) (read_at : Time)
  | typing_indicator (user_id : UserId) (is_typing : Bool)
  | notification_update (unread_count : Nat)
  deriving Repr, DecidableEq

/-- Events sent directly to the connected client (`self.send(...)` payloads). -/
inductive CEvent where
  | connection_established
  | existing_message (message_id : MsgId) (message : String) (sender_id : UserId)
      (timestamp : Time) (delivered : Bool) (read : Bool) (is_own_message : Bool)
  | user_status (user_id : UserId) (is_online : Bool) (last_seen : Option Time)
  | unread_count_update (unread_count : Nat)
  deriving Repr, DecidableEq

/-- One observable action of a consumer: accept/close the socket, join or
leave a group, publish to a group, or send a frame to the client. -/
inductive Effect where
  | accept
  | close
  | groupAdd (g : GroupName)
  | groupDiscard (g : GroupName)
  | groupSend (g : GroupName) (e : GEvent)
  | sendClient (e : CEvent)
  deriving Repr, DecidableEq

/-- One open room-channel socket: `self.scope["user"]` and the `room_id`
URL parameter.  `authenticated` records whether the scope user is a real
login; `ChatConsumer.connect` never consults it. -/
structure Session where
  user : UserId
  room_id : RoomId
  authenticated : Bool
  deriving Repr, DecidableEq

/-- Access check of `views.chat_room` / `views.send_message` (lines 95-101 and
255-260): typed slots first, then generic slots, else denied. -/
def room_has_access (r : ChatRoom) (u : UserId) : Bool :=
  if r.investor.isSome && r.regular_user.isSome then
    r.regular_user == some u || r.investor == some u
  else if r.participant_1.isSome && r.participant_2.isSome then
    r.participant_1 == some u || r.participant_2 == some u
  else
    false

inductive RoomViewResp where
  | notFound
  | accessDenied
  | granted
  deriving Repr, DecidableEq

/-- Admission decision of the HTTP `chat_room` view: 404 on a missing room,
denial when `room_has_access` fails, otherwise the page/snapshot is served. -/
def chat_room_view (db : DB) (rid : RoomId) (u : UserId) : RoomViewResp :=
  match findRoom db rid with
  | none => RoomViewResp.notFound
  | some r => if room_has_access r u then RoomViewResp.granted else RoomViewResp.accessDenied

/-- `ChatConsumer.get_user_unread_count`: rooms from any of the four slots
(both pairing schemes), unread messages not sent by the user. -/
def roomMatchesAny (r : ChatRoom) (u : UserId) : Bool :=
  r.investor == some u || r.regular_user == some u ||
  r.participant_1 == some u || r.participant_2 == some u

def inAnyUserRoom (db : DB) (u : UserId) (rid : RoomId) : Bool :=
  db.rooms.any (fun r => r.id == rid && roomMatchesAny r u)

def get_user_unread_count (db : DB) (u : UserId) : Nat :=
  (db.msgs.filter (fun m => inAnyUserRoom db u m.room && !m.read && m.sender != u)).length

/-- `NotificationConsumer.get_unread_count` in `notification_consumer.py`:
only the typed (investor / regular_user) scheme is consulted. -/
def roomMatchesTraditional (r : ChatRoom) (u : UserId) : Bool :=
  r.investor == some u || r.regular_user == some u

def inTraditionalUserRoom (db : DB) (u : UserId) (rid : RoomId) : Bool :=
  db.rooms.any (fun r => r.id == rid && roomMatchesTraditional r u)

def notification_get_unread_count (db : DB) (u : UserId) : Nat :=
  (db.msgs.filter (fun m => inTraditionalUserRoom db u m.room && !m.read && m.sender != u)).length

/-- `ChatConsumer.save_message`: look up the room (a missing room raises
`DoesNotExist`, caught inside and turned into `None`); otherwise persist the
body with `delivered=True, read=False` and return the new id. -/
def save_message (s : Session) (db : DB) (body : String) (t : Time) :
    Option (DB × MsgId) :=
  match findRoom db s.room_id with
  | none => none
  | some _ =>
      let m : ChatMessage :=
        { id := db.nextMsg, room := s.room_id, sender := s.user, message := body,
          timestamp := t, delivered := true, delivered_at := none,
          read := false, read_at := none }
      some ({ db with msgs := db.msgs ++ [m], nextMsg := db.nextMsg + 1 }, db.nextMsg)

/-- `ChatConsumer.mark_message_read`: fetch by id alone (no room, sender or
participant filter), set `read=True` and stamp `read_at`; `DoesNotExist` is
caught and leaves the store unchanged.  The `delivered` flag is not touched. -/
def mark_message_read (db : DB) (mid : MsgId) (t : Time) : DB :=
  { db with msgs := db.msgs.map (fun m =>
      if m.id == mid then { m with read := true, read_at := some t } else m) }

/-- `ChatConsumer.get_other_user_id`: resolve the other participant through
whichever pairing scheme is populated; `None` when neither is. -/
def get_other_user_id (db : DB) (rid : RoomId) (u : UserId) : Option UserId :=
  match findRoom db rid with
  | none => none
  | some r =>
      if r.investor.isSome && r.regular_user.isSome then
        if r.regular_user == some u then r.investor else r.regular_user
      else if r.participant_1.isSome && r.participant_2.isSome then
        if r.participant_1 == some u then r.participant_2 else r.participant_1
      else none

structure UserStatus where
  user_id : UserId
  is_online : Bool
  last_seen : Option Time
  deriving Repr, DecidableEq

/-- `ChatConsumer.get_other_user_status`: the other participant's stored
presence row, reported verbatim — the stored `is_online` flag is returned
with no freshness comparison against `last_seen`.  A missing presence row
reports offline with no last-seen. -/
def get_other_user_status (db : DB) (rid : RoomId) (u : UserId) : Option UserStatus :=
  match get_other_user_id db rid u with
  | none => none
  | some other =>
      match findAct db other with
      | some a => some { user_id := other, is_online := a.is_online, last_seen := some a.last_seen }
      | none => some { user_id := other, is_online := false, last_seen := none }

/-- `ChatConsumer.set_user_online`: looks the room up first (a missing room
raises, is caught, and leaves the store untouched), then get-or-creates the
presence row, setting `is_online`, `current_chat_room` and `last_seen`.
Neither branch writes `is_typing` or `typing_in_room`. -/
def set_user_online (db : DB) (u : UserId) (rid : RoomId) (is_online : Bool) (t : Time) : DB :=
  match findRoom db rid with
  | none => db
  | some _ =>
      match findAct db u with
      | some _ =>
          { db with acts := db.acts.map (fun a =>
              if a.user == u then
                { a with is_online := is_online,
                         current_chat_room := if is_online then some rid else none,
                         last_seen := t }
              else a) }
      | none =>
          { db with acts := db.acts ++
              [{ user := u, last_seen := t, is_online := is_online,
                 current_chat_room := if is_online then some rid else none,
                 is_typing := false, typing_in_room := none }] }

/-- Stable insertion by ascending timestamp, modelling
`order_by('timestamp')` on the chronologically stored list. -/
def insertByTs (m : ChatMessage) : List ChatMessage → List ChatMessage
  | [] => [m]
  | x :: xs => if x.timestamp ≤ m.timestamp then x :: insertByTs m xs else m :: x :: xs

def sortByTs (l : List ChatMessage) : List ChatMessage :=
  l.foldr insertByTs []

/-- `ChatConsumer.get_existing_messages`: the room's messages in ascending
timestamp order (errors, e.g. a missing room, degrade to an empty history). -/
def get_existing_messages (db : DB) (rid : RoomId) : List ChatMessage :=
  sortByTs (db.msgs.filter (fun m => m.room == rid))

/-- `ChatConsumer.send_existing_messages`: replay the full history to the new
client, each frame annotated with `is_own_message`, then push the other
participant's current status when one resolves. -/
def send_existing_messages (s : Session) (db : DB) : List Effect :=
  ((get_existing_messages db s.room_id).map (fun m =>
      Effect.sendClient (CEvent.existing_message m.id m.message m.sender m.timestamp
        m.delivered m.read (m.sender == s.user))))
  ++ (match get_other_user_status db s.room_id s.user with
      | some st => [Effect.sendClient (CEvent.user_status st.user_id st.is_online st.last_seen)]
      | none => [])

/-- `ChatConsumer.connect`: join the room group and accept — with no check at
all that the requester is a participant of the room (or even authenticated) —
then mark presence online, replay history and the peer's status, broadcast
this user's online status, and confirm the connection. -/
def ws_connect (s : Session) (db : DB) (t : Time) : DB × List Effect :=
  let db1 := set_user_online db s.user s.room_id true t
  (db1,
   [Effect.groupAdd (GroupName.room s.room_id), Effect.accept]
   ++ send_existing_messages s db1
   ++ [Effect.groupSend (GroupName.room s.room_id)
         (GEvent.user_status_update s.user true t),
       Effect.sendClient CEvent.connection_established])

/-- `ChatConsumer.disconnect`: mark presence offline, broadcast the offline
status, leave the room group. -/
def ws_disconnect (s : Session) (db : DB) (t : Time) : DB × List Effect :=
  let db1 := set_user_online db s.user s.room_id false t
  (db1,
   [Effect.groupSend (GroupName.room s.room_id)
      (GEvent.user_status_update s.user false t),
    Effect.groupDiscard (GroupName.room s.room_id)])

/-- `ChatConsumer.send_notification_update`: recompute the recipient's unread
count and publish it to the recipient's notification group. -/
def send_notification_update (db : DB) (recipient : UserId) : Effect :=
  Effect.groupSend (GroupName.notifications recipient)
    (GEvent.notification_update (get_user_unread_count db recipient))

/-- Python's `str.strip()`: drop leading and trailing whitespace.  Defined
over the character list so that it evaluates inside the kernel. -/
def pyStrip (s : String) : String :=
  String.mk (((s.data.dropWhile Char.isWhitespace).reverse.dropWhile Char.isWhitespace).reverse)

/-- The parse of one incoming client frame.  `malformed` is a frame
`json.loads` rejects; `payload` carries the three fields the handler reads,
each `none` when absent from the JSON object.  Message ids in the source are
UUID strings and hence never falsy, so `Option` fully captures the
`if message_id:` guard. -/
inductive WsInput where
  | malformed
  | payload (ty : Option String) (msg : Option String) (mid : Option MsgId)
  deriving Repr, DecidableEq

/-- The body of `ChatConsumer.receive` before its `try/except` boundary.
Raises (`Except.error`) exactly where the source raises out of the handler:
on a JSON parse failure and on the `data['message']` `KeyError`.  The store
failures the source handles locally (`save_message` returning `None`,
`mark_message_read` on a missing id) are handled locally here too. -/
def receive_body (s : Session) (db : DB) (t : Time) :
    WsInput → Except String (DB × List Effect)
  | WsInput.malformed => Except.error "json.loads"
  | WsInput.payload ty msg mid =>
      if ty == some "chat_message" then
        match msg with
        | none => Except.error "KeyError: message"
        | some raw =>
            let body := pyStrip raw
            if body == "" then Except.ok (db, [])
            else
              match save_message s db body t with
              | none => Except.ok (db, [])
              | some (db1, newId) =>
                  let notify :=
                    match get_other_user_id db1 s.room_id s.user with
                    | some other => [send_notification_update db1 other]
                    | none => []
                  Except.ok (db1,
                    notify ++
                    [Effect.groupSend (GroupName.room s.room_id)
                       (GEvent.broadcast_message body s.user t newId true false)])
      else if ty == some "message_read" then
        match mid with
        | none => Except.ok (db, [])
        | some m_id =>
            let db1 := mark_message_read db m_id t
            Except.ok (db1,
              [send_notification_update db1 s.user,
               Effect.groupSend (GroupName.room s.room_id)
                 (GEvent.message_read_update m_id s.user t)])
      else if ty == some "typing_start" then
        Except.ok (db, [Effect.groupSend (GroupName.room s.room_id)
          (GEvent.typing_indicator s.user true)])
      else if ty == some "typing_stop" then
        Except.ok (db, [Effect.groupSend (GroupName.room s.room_id)
          (GEvent.typing_indicator s.user false)])
      else
        Except.ok (db, [])

/-- `ChatConsumer.receive`: the per-event `try/except Exception` boundary.
Any raise inside the body is caught and logged; the event degrades to a
no-op (raises in the source occur before any store write or emission) and
the connection stays up — no branch emits `close`. -/
def receive (s : Session) (db : DB) (t : Time) (inp : WsInput) : DB × List Effect :=
  match receive_body s db t inp with
  | Except.ok r => r
  | Except.error _ => (db, [])

/-- A stream of incoming events on one or more sessions, processed in order;
the emitted effects are concatenated. -/
def runEvents (db : DB) : List (Session × WsInput × Time) → DB × List Effect
  | [] => (db, [])
  | (s, inp, t) :: rest =>
      let (db1, es) := receive s db t inp
      let (db2, es2) := runEvents db1 rest
      (db2, es ++ es2)

inductive SendResult where
  | notFound
  | accessDenied
  | emptyBody
  | sent (mid : MsgId)
  deriving Repr, DecidableEq

/-- `views.send_message` (HTTP): 404 on a missing room, the dual-scheme
access check, the blank-body rejection (reported as an error, unlike the
silent WebSocket no-op), then `ChatMessage.objects.create` with the model
defaults `delivered=False, read=False`. -/
def send_message (db : DB) (u : UserId) (rid : RoomId) (raw : String) (t : Time) :
    DB × SendResult :=
  match findRoom db rid with
  | none => (db, SendResult.notFound)
  | some r =>
      if !room_has_access r u then (db, SendResult.accessDenied)
      else
        let body := pyStrip raw
        if body == "" then (db, SendResult.emptyBody)
        else
          let m : ChatMessage :=
            { id := db.nextMsg, room := rid, sender := u, message := body,
              timestamp := t, delivered := false, delivered_at := none,
              read := false, read_at := none }
          ({ db with msgs := db.msgs ++ [m], nextMsg := db.nextMsg + 1 },
           SendResult.sent db.nextMsg)

/-- The two bulk updates of the `chat_room` AJAX fetch (views.py 147-169):
messages of this room from `other` still undelivered get
`delivered=True, delivered_at=now`; then those still unread get
`read=True, read_at=now`. -/
def chat_room_fetch_mark (db : DB) (rid : RoomId) (other : UserId) (t : Time) : DB :=
  let afterDelivered := db.msgs.map (fun m =>
    if m.room == rid && m.sender == other && !m.delivered then
      { m with delivered := true, delivered_at := some t } else m)
  let afterRead := afterDelivered.map (fun m =>
    if m.room == rid && m.sender == other && !m.read then
      { m with read := true, read_at := some t } else m)
  { db with msgs := afterRead }

/-- The presence part of the `chat_room` AJAX fetch (views.py 124-142): the
other user counts as online only when the stored flag is set AND `last_seen`
is fresher than 60 seconds; a missing presence row reports offline. -/
def chat_room_snapshot_is_online (db : DB) (other : UserId) (t : Time) : Bool :=
  match findAct db other with
  | some a => a.is_online && decide (t - a.last_seen < 60)
  | none => false

/-- One open notification-channel socket. -/
structure NotifSession where
  user : UserId
  authenticated : Bool
  deriving Repr, DecidableEq

/-- `NotificationConsumer.connect` (`notification_consumer.py`): refuse and
close an unauthenticated scope; otherwise join the per-user group, accept,
and immediately push the unread count computed by
`notification_get_unread_count` (typed-scheme rooms only). -/
def notification_connect (s : NotifSession) (db : DB) : List Effect :=
  if s.authenticated then
    [Effect.groupAdd (GroupName.notifications s.user), Effect.accept,
     Effect.sendClient (CEvent.unread_count_update (notification_get_unread_count db s.user))]
  else
    [Effect.close]

/-- A user as `views.start_chat_with_user` sees one: identity plus the two
role flags the branch conditions consult. -/
structure UserRec where
  id : UserId
  is_investor : Bool
  is_staff : Bool
  deriving Repr, DecidableEq

/-- Lookup half of `get_or_create(investor=inv, regular_user=reg)`: only the
two queried slots are constrained, exactly as the ORM call does. -/
def traditional_lookup (db : DB) (inv reg : UserId) : Option ChatRoom :=
  db.rooms.find? (fun r => r.investor == some inv && r.regular_user == some reg)

def get_or_create_traditional (db : DB) (inv reg : UserId) : DB × RoomId :=
  match traditional_lookup db inv reg with
  | some r => (db, r.id)
  | none =>
      let room : ChatRoom :=
        { id := db.nextRoom, investor := some inv, regular_user := some reg,
          participant_1 := none, participant_2 := none }
      ({ db with rooms := room :: db.rooms, nextRoom := db.nextRoom + 1 }, db.nextRoom)

/-- The generic-slot lookup of `start_chat_with_user`: both slot orders are
tried (`Q(p1=me, p2=other) | Q(p1=other, p2=me)`). -/
def participant_lookup (db : DB) (a b : UserId) : Option ChatRoom :=
  db.rooms.find? (fun r =>
    (r.participant_1 == some a && r.participant_2 == some b) ||
    (r.participant_1 == some b && r.participant_2 == some a))

/-- `views.start_chat_with_user`: self-chat refused; a legitimate
investor↔non-staff-entrepreneur pairing uses the typed slots canonicalized by
role; any other pairing uses the generic slots with both orders tried before
creating.  Returns the room id reached, `none` for the self-chat error. -/
def start_chat_with_user (db : DB) (me other : UserRec) : Option (DB × RoomId) :=
  if me.id == other.id then none
  else if me.is_investor && !other.is_investor && !other.is_staff then
    some (get_or_create_traditional db me.id other.id)
  else if other.is_investor && !me.is_investor && !me.is_staff then
    some (get_or_create_traditional db other.id me.id)
  else
    match participant_lookup db me.id other.id with
    | some r => some (db, r.id)
    | none =>
        let room : ChatRoom :=
          { id := db.nextRoom, investor := none, regular_user := none,
            participant_1 := some me.id, participant_2 := some other.id }
        some ({ db with rooms := room :: db.rooms, nextRoom := db.nextRoom + 1 }, db.nextRoom)

/-- Does this room pair users `a` and `b`, under either scheme, in either
slot order? -/
def paired_room (r : ChatRoom) (a b : UserId) : Bool :=
  (r.investor == some a && r.regular_user == some b) ||
  (r.investor == some b && r.regular_user == some a) ||
  (r.participant_1 == some a && r.participant_2 == some b) ||
  (r.participant_1 == some b && r.participant_2 == some a)

/-- One store-mutating operation of the protocol, for reasoning about
operation sequences: a WebSocket client event, the HTTP send endpoint, or
the HTTP fetch path's delivered/read marking. -/
inductive ChatOp where
  | wsEvent (s : Session) (inp : WsInput) (t : Time)
  | httpSend (u : UserId) (rid : RoomId) (body : String) (t : Time)
  | httpFetch (rid : RoomId) (other : UserId) (t : Time)
  deriving Repr, DecidableEq

def isHttpSend : ChatOp → Bool
  | ChatOp.httpSend _ _ _ _ => true
  | _ => false

def stepOp (db : DB) : ChatOp → DB
  | ChatOp.wsEvent s inp t => (receive s db t inp).1
  | ChatOp.httpSend u rid body t => (send_message db u rid body t).1
  | ChatOp.httpFetch rid other t => chat_room_fetch_mark db rid other t

def runOps (db : DB) (ops : List ChatOp) : DB :=
  List.foldl stepOp db ops

/-- Every message row of the store carries `delivered=true`. -/
def allDelivered (db : DB) : Prop :=
  ∀ m ∈ db.msgs, m.delivered = true

/- Concrete fixtures used by the closed evaluation theorems. -/

/-- A typed-scheme room pairing users 1 (investor) and 2 (entrepreneur). -/
def roomF : ChatRoom :=
  { id := 10, investor := some 1, regular_user := some 2,
    participant_1 := none, participant_2 := none }

/-- A generic-scheme room pairing users 1 and 2. -/
def roomP : ChatRoom :=
  { id := 20, investor := none, regular_user := none,
    participant_1 := some 1, participant_2 := some 2 }

/-- An unread message from user 1 sitting in `roomF`. -/
def msgF : ChatMessage :=
  { id := 100, room := 10, sender := 1, message := "hello", timestamp := 5,
    delivered := true, delivered_at := none, read := false, read_at := none }

/-- Store with the typed room and one unread message, no presence rows. -/
def dbF : DB :=
  { rooms := [roomF], msgs := [msgF], acts := [], nextRoom := 11, nextMsg := 101 }

/-- Store with just the typed room. -/
def dbR : DB :=
  { rooms := [roomF], msgs := [], acts := [], nextRoom := 11, nextMsg := 100 }

/-- Store with the generic-scheme room and one unread message from user 1. -/
def dbP : DB :=
  { rooms := [roomP],
    msgs := [{ id := 200, room := 20, sender := 1, message := "hey", timestamp := 3,
               delivered := true, delivered_at := none, read := false, read_at := none }],
    acts := [], nextRoom := 21, nextMsg := 201 }

/-- Store with the typed room and a stale presence row for user 1: flagged
online but last seen at time 0. -/
def dbStale : DB :=
  { rooms := [roomF], msgs := [],
    acts := [{ user := 1, last_seen := 0, is_online := true,
               current_chat_room := some 10, is_typing := false, typing_in_room := none }],
    nextRoom := 11, nextMsg := 100 }

/-- Store with the typed room and a presence row for user 2 that is online
and typing (set through the HTTP typing endpoint). -/
def dbTyping : DB :=
  { rooms := [roomF], msgs := [],
    acts := [{ user := 2, last_seen := 0, is_online := true,
               current_chat_room := some 10, is_typing := true, typing_in_room := some 10 }],
    nextRoom := 11, nextMsg := 100 }

/-- Mapping a user-preserving update over the presence table commutes with
the lookup by user. -/
theorem find?_map_user (l : List UserActivity) (u : UserId) (g : UserActivity → UserActivity)
    (hg : ∀ a, (g a).user = a.user) :
    (l.map g).find? (fun a => a.user == u) = (l.find? (fun a => a.user == u)).map g := by
  induction l with
  | nil => rfl
  | cons x xs ih =>
      by_cases h : (x.user == u) = true
      · rw [List.map_cons, List.find?_cons_of_pos, List.find?_cons_of_pos]
        · rfl
        · exact h
        · rw [hg x]; exact h
      · rw [List.map_cons, List.find?_cons_of_neg, List.find?_cons_of_neg, ih]
        · simpa using h
        · rw [hg x]; simpa using h

/-- An operation trace that avoids the HTTP send endpoint: a WebSocket send
by user 1 followed by a WebSocket mark-read by user 2. -/
def goodOps : List ChatOp :=
  [ChatOp.wsEvent ⟨1, 10, true⟩ (WsInput.payload (some "chat_message") (some " hi ") none) 0,
   ChatOp.wsEvent ⟨2, 10, true⟩ (WsInput.payload (some "message_read") none (some 100)) 5]

/-- The message `goodOps` leaves in `dbR`: marked read, still delivered. -/
def msgC2 : ChatMessage :=
  { id := 100, room := 10, sender := 1, message := "hi", timestamp := 0,
    delivered := true, delivered_at := none, read := true, read_at := some 5 }

/-- C1: the claim says both the WebSocket connect path and the HTTP
chat-room path admit only legitimate room participants.  The HTTP path does
deny user 3 access to room 10, but `ChatConsumer.connect` for the same
non-participant joins the room group, accepts the socket, replays the room's
message history, and never closes: the WebSocket path has no participant
check at all. -/
theorem C1_ws_connect_admits_non_participant :
    room_has_access roomF 3 = false ∧
    chat_room_view dbF 10 3 = RoomViewResp.accessDenied ∧
    Effect.groupAdd (GroupName.room 10) ∈ (ws_connect ⟨3, 10, true⟩ dbF 0).2 ∧
    Effect.accept ∈ (ws_connect ⟨3, 10, true⟩ dbF 0).2 ∧
    Effect.sendClient (CEvent.existing_message 100 "hello" 1 5 true false false) ∈
      (ws_connect ⟨3, 10, true⟩ dbF 0).2 ∧
    Effect.close ∉ (ws_connect ⟨3, 10, true⟩ dbF 0).2 := by
  decide

/-- C2 counterexample: send a message through the HTTP endpoint (persisted
with the model defaults `delivered=false`), then mark it read over the
WebSocket — the store now holds a message with `read=true, delivered=false`,
so read does not imply delivered; letting the recipient's HTTP fetch then
mark delivery stamps `delivered_at=10` after `read_at=5`, violating
`delivered_at ≤ read_at` as well. -/
theorem C2_counterexample :
    (runOps dbR [ChatOp.httpSend 1 10 "hi" 0,
        ChatOp.wsEvent ⟨2, 10, true⟩ (WsInput.payload (some "message_read") none (some 100)) 5]).msgs.map
      (fun m => (m.read, m.delivered)) = [(true, false)] ∧
    (runOps dbR [ChatOp.httpSend 1 10 "hi" 0,
        ChatOp.wsEvent ⟨2, 10, true⟩ (WsInput.payload (some "message_read") none (some 100)) 5,
        ChatOp.httpFetch 10 1 10]).msgs.map
      (fun m => (m.delivered_at, m.read_at)) = [(some 10, some 5)] ∧
    ¬ ((10 : Time) ≤ 5) := by
  decide

/-- C3 counterexample: user 2 participates in room 20 through the generic
(participant_1/participant_2) scheme and has one unread message there, so
the dual-scheme total is 1 — but the connect-time push of the notification
consumer reports 0, because its `get_unread_count` only queries the typed
(investor/regular_user) scheme. -/
theorem C3_counterexample :
    notification_connect ⟨2, true⟩ dbP =
      [Effect.groupAdd (GroupName.notifications 2), Effect.accept,
       Effect.sendClient (CEvent.unread_count_update 0)] ∧
    get_user_unread_count dbP 2 = 1 := by
  decide

/-- C4 counterexample: user 1's presence row is flagged online but was last
seen 120 seconds ago (far beyond the 60-second freshness threshold); the
HTTP snapshot path reports offline, but the WebSocket connect-time status
push (`get_other_user_status`) still reports `is_online=true` — it applies
no staleness override. -/
theorem C4_counterexample :
    get_other_user_status dbStale 10 2 =
      some { user_id := 1, is_online := true, last_seen := some 0 } ∧
    chat_room_snapshot_is_online dbStale 1 120 = false ∧
    60 ≤ (120 : Time) - 0 := by
  decide

/-- C5 counterexample: user 2's presence row has `is_typing=true` (set via
the HTTP typing endpoint); after `ChatConsumer.disconnect` completes the row
is offline but still `is_typing=true` — `set_user_online` never touches the
typing fields. -/
theorem C5_counterexample :
    ((ws_disconnect ⟨2, 10, true⟩ dbTyping 5).1.acts.map
      (fun a => (a.user, a.is_online, a.is_typing))) = [(2, false, true)] := by
  decide

/-- C5 (amended): after the disconnect handler completes, the user's
presence row is offline with its room binding cleared and its last-seen
moved to now — but the typing fields are carried over unchanged from the
prior row; typing state is not cleared by disconnect. -/
theorem C5_amended (s : Session) (db : DB) (r : ChatRoom) (a : UserActivity) (t : Time)
    (hroom : findRoom db s.room_id = some r)
    (hact : findAct db s.user = some a) :
    findAct (ws_disconnect s db t).1 s.user =
      some { a with is_online := false, current_chat_room := none, last_seen := t } := by
  have hact' : db.acts.find? (fun x => x.user == s.user) = some a := hact
  have hpa : (a.user == s.user) = true := by
    have h := List.find?_some hact'
    simpa using h
  have hg : ∀ x : UserActivity,
      ((fun x : UserActivity =>
          if x.user == s.user then
            { x with is_online := false,
                     current_chat_room := (if false then some s.room_id else none),
                     last_seen := t }
          else x) x).user = x.user := by
    intro x
    by_cases hx : (x.user == s.user) = true
    · simp [hx]
    · simp only [Bool.not_eq_true] at hx
      simp [hx]
  show findAct (set_user_online db s.user s.room_id false t) s.user = _
  unfold set_user_online
  rw [hroom, hact]
  unfold findAct
  dsimp only
  rw [find?_map_user _ _ _ hg, hact']
  simp [hpa]
  intro hcontra
  exact absurd (by simpa using hpa) hcontra

/-- C5 amended witness: user 2 is online and typing in room 10; after
disconnect the row is offline with the room cleared and the typing fields
untouched. -/
theorem C5_amended_witness :
    findAct (ws_disconnect ⟨2, 10, true⟩ dbTyping 5).1 2 =
      some { user := 2, last_seen := 5, is_online := false, current_chat_room := none,
             is_typing := true, typing_in_room := some 10 } :=
  C5_amended ⟨2, 10, true⟩ dbTyping roomF
    { user := 2, last_seen := 0, is_online := true, current_chat_room := some 10,
      is_typing := true, typing_in_room := some 10 } 5 (by decide) (by decide)

/-- C4 (amended): when the other participant's presence row is at least 60
seconds stale, the HTTP message-fetch snapshot reports offline, but the
WebSocket connect-time status push returns the stored flag verbatim — the
staleness override exists only on the HTTP read path. -/
theorem C4_amended (db : DB) (rid : RoomId) (viewer other : UserId) (a : UserActivity) (t : Time)
    (hid : get_other_user_id db rid viewer = some other)
    (hact : findAct db other = some a)
    (hstale : 60 ≤ t - a.last_seen) :
    chat_room_snapshot_is_online db other t = false ∧
    get_other_user_status db rid viewer =
      some { user_id := other, is_online := a.is_online, last_seen := some a.last_seen } := by
  constructor
  · unfold chat_room_snapshot_is_online
    rw [hact]
    have hlt : ¬ (t - a.last_seen < 60) := Nat.not_lt.mpr hstale
    simp [hlt]
  · simp [get_other_user_status, hid, hact]

/-- C4 amended witness: user 1's row is flagged online but 120 seconds
stale; the snapshot path reports offline while the WebSocket status push
reports the stored online flag. -/
theorem C4_amended_witness :
    chat_room_snapshot_is_online dbStale 1 120 = false ∧
    get_other_user_status dbStale 10 2 =
      some { user_id := 1, is_online := true, last_seen := some 0 } :=
  C4_amended dbStale 10 2 1
    { user := 1, last_seen := 0, is_online := true, current_chat_room := some 10,
      is_typing := false, typing_in_room := none } 120 (by decide) (by decide) (by decide)

/-- C3 (amended): an unauthenticated notification connect is refused and
closed immediately; an authenticated user is joined to their per-user group,
accepted, and immediately pushed an unread count — computed by
`notification_get_unread_count`, which covers only the typed
(investor/regular_user) pairing scheme, not the generic one. -/
theorem C3_amended (s : NotifSession) (db : DB) :
    (s.authenticated = false → notification_connect s db = [Effect.close]) ∧
    (s.authenticated = true → notification_connect s db =
      [Effect.groupAdd (GroupName.notifications s.user), Effect.accept,
       Effect.sendClient (CEvent.unread_count_update (notification_get_unread_count db s.user))]) := by
  constructor <;> intro h <;> simp [notification_connect, h]

/-- C3 amended witness: the anonymous session is closed; the authenticated
session for user 2 gets the typed-scheme unread count pushed. -/
theorem C3_amended_witness :
    notification_connect ⟨2, false⟩ dbP = [Effect.close] ∧
    notification_connect ⟨2, true⟩ dbP =
      [Effect.groupAdd (GroupName.notifications 2), Effect.accept,
       Effect.sendClient (CEvent.unread_count_update (notification_get_unread_count dbP 2))] :=
  ⟨(C3_amended ⟨2, false⟩ dbP).1 rfl, (C3_amended ⟨2, true⟩ dbP).2 rfl⟩

/-- A WebSocket save always persists with `delivered=true`, so it preserves
the all-delivered invariant. -/
theorem save_message_allDelivered (s : Session) (db : DB) (body : String) (t : Time)
    (db1 : DB) (mid : MsgId) (h : save_message s db body t = some (db1, mid))
    (hd : allDelivered db) : allDelivered db1 := by
  unfold save_message at h
  cases hfr : findRoom db s.room_id with
  | none => rw [hfr] at h; cases h
  | some r =>
      rw [hfr] at h
      simp only [Option.some.injEq, Prod.mk.injEq] at h
      obtain ⟨h1, _⟩ := h
      subst h1
      intro m hm
      simp only [List.mem_append, List.mem_singleton] at hm
      rcases hm with hm | hm
      · exact hd m hm
      · subst hm; rfl

/-- Marking a message read never writes the `delivered` flag, so it
preserves the all-delivered invariant. -/
theorem mark_message_read_allDelivered (db : DB) (mid : MsgId) (t : Time)
    (hd : allDelivered db) : allDelivered (mark_message_read db mid t) := by
  intro m hm
  simp only [mark_message_read, List.mem_map] at hm
  obtain ⟨m0, hm0, rfl⟩ := hm
  cases h : (m0.id == mid) <;> simp [h] <;> exact hd m0 hm0

/-- The HTTP fetch marking only ever sets `delivered` to true, so it
preserves the all-delivered invariant. -/
theorem chat_room_fetch_mark_allDelivered (db : DB) (rid : RoomId) (other : UserId) (t : Time)
    (hd : allDelivered db) : allDelivered (chat_room_fetch_mark db rid other t) := by
  intro m hm
  simp only [chat_room_fetch_mark, List.map_map, List.mem_map, Function.comp] at hm
  obtain ⟨m0, hm0, rfl⟩ := hm
  have h0 := hd m0 hm0
  simp only [h0, Bool.not_true, Bool.and_false, Bool.false_eq_true, if_false]
  cases h2 : (m0.room == rid && (m0.sender == other) && !m0.read) <;> simp [h2, h0]

/-- The body of `receive` preserves the all-delivered invariant whenever it
returns normally. -/
theorem receive_body_allDelivered (s : Session) (db : DB) (t : Time) (inp : WsInput)
    (hd : allDelivered db) :
    ∀ p, receive_body s db t inp = Except.ok p → allDelivered p.1 := by
  intro p hb
  cases inp with
  | malformed => simp [receive_body] at hb
  | payload ty msg mid =>
      simp only [receive_body] at hb
      split at hb
      · split at hb
        · simp at hb
        · rename_i raw
          split at hb
          · injection hb with h; subst h; exact hd
          · split at hb
            · injection hb with h; subst h; exact hd
            · rename_i db1 newId heq
              injection hb with h; subst h
              exact save_message_allDelivered s db (pyStrip raw) t db1 newId heq hd
      · split at hb
        · split at hb
          · injection hb with h; subst h; exact hd
          · rename_i m_id
            injection hb with h; subst h
            exact mark_message_read_allDelivered db m_id t hd
        · split at hb
          · injection hb with h; subst h; exact hd
          · split at hb
            · injection hb with h; subst h; exact hd
            · injection hb with h; subst h; exact hd

/-- `receive` (the catching wrapper) preserves the all-delivered invariant. -/
theorem receive_allDelivered (s : Session) (db : DB) (t : Time) (inp : WsInput)
    (hd : allDelivered db) : allDelivered (receive s db t inp).1 := by
  unfold receive
  cases hb : receive_body s db t inp with
  | error e => exact hd
  | ok p => exact receive_body_allDelivered s db t inp hd p hb

/-- Every operation other than the HTTP send preserves the all-delivered
invariant. -/
theorem stepOp_allDelivered (db : DB) (op : ChatOp) (hop : isHttpSend op = false)
    (hd : allDelivered db) : allDelivered (stepOp db op) := by
  cases op with
  | wsEvent s inp t => exact receive_allDelivered s db t inp hd
  | httpSend u rid body t => simp [isHttpSend] at hop
  | httpFetch rid other t => exact chat_room_fetch_mark_allDelivered db rid other t hd

/-- C2 (amended): the protocol does not force `delivered=true` on mark-read
(see the counterexample); what holds is that every message persisted by the
WebSocket path is born delivered and no operation ever clears the flag, so
over any operation sequence that avoids the HTTP send endpoint every stored
message keeps `delivered=true` — and in particular read implies delivered. -/
theorem C2_amended (db : DB) (ops : List ChatOp)
    (h0 : allDelivered db) (h1 : ∀ op ∈ ops, isHttpSend op = false) :
    ∀ m ∈ (runOps db ops).msgs, m.read = true → m.delivered = true := by
  have key : allDelivered (runOps db ops) := by
    induction ops generalizing db with
    | nil => exact h0
    | cons op rest ih =>
        exact ih (stepOp db op)
          (stepOp_allDelivered db op (h1 op (by simp)) h0)
          (fun o ho => h1 o (by simp [ho]))
  intro m hm _
  exact key m hm

/-- C2 amended witness: sending over the WebSocket and then marking read
leaves the stored message delivered. -/
theorem C2_amended_witness : msgC2.delivered = true :=
  C2_amended dbR goodOps (by intro m hm; simp [dbR] at hm) (by decide) msgC2 (by decide)
    (by decide)

/-- C6: a chat_message event whose body strips to whitespace-only is a
silent no-op — store unchanged and no effects at all (nothing persisted, no
notification push, no room broadcast, no error frame); a non-blank body,
with the session's room present, appends exactly one message persisted with
`delivered=true, read=false`. -/
theorem C6_blank_silent_nonblank_persists (s : Session) (db : DB) (t : Time)
    (raw : String) (mid : Option MsgId) :
    (pyStrip raw = "" →
      receive s db t (WsInput.payload (some "chat_message") (some raw) mid) = (db, [])) ∧
    (pyStrip raw ≠ "" → ∀ r, findRoom db s.room_id = some r →
      (receive s db t (WsInput.payload (some "chat_message") (some raw) mid)).1.msgs =
        db.msgs ++ [{ id := db.nextMsg, room := s.room_id, sender := s.user,
                      message := pyStrip raw, timestamp := t, delivered := true,
                      delivered_at := none, read := false, read_at := none }]) := by
  constructor
  · intro h
    simp [receive, receive_body, h]
  · intro h r hr
    simp [receive, receive_body, h, save_message, hr]

/-- C6 witness: a whitespace-only body is a complete no-op on a concrete
store; the body " hi " is stripped and persisted delivered-not-read. -/
theorem C6_witness :
    receive ⟨1, 10, true⟩ dbR 7 (WsInput.payload (some "chat_message") (some "   ") none) =
      (dbR, []) ∧
    (receive ⟨1, 10, true⟩ dbR 7 (WsInput.payload (some "chat_message") (some " hi ") none)).1.msgs =
      dbR.msgs ++ [{ id := dbR.nextMsg, room := 10, sender := 1, message := pyStrip " hi ",
                     timestamp := 7, delivered := true, delivered_at := none,
                     read := false, read_at := none }] :=
  ⟨(C6_blank_silent_nonblank_persists ⟨1, 10, true⟩ dbR 7 "   " none).1 (by decide),
   (C6_blank_silent_nonblank_persists ⟨1, 10, true⟩ dbR 7 " hi " none).2 (by decide)
     roomF (by decide)⟩

/-- C7: for a persisted WebSocket message in a room whose other participant
resolves, the emitted effect list is exactly the notification-group push to
the other participant followed by the room-group broadcast — the unread
push is issued before, never after, the room broadcast. -/
theorem C7_notify_before_broadcast (s : Session) (db : DB) (t : Time) (raw : String)
    (r : ChatRoom) (other : UserId)
    (hblank : pyStrip raw ≠ "")
    (hroom : findRoom db s.room_id = some r)
    (hother : get_other_user_id db s.room_id s.user = some other) :
    (receive s db t (WsInput.payload (some "chat_message") (some raw) none)).2 =
      [send_notification_update
         (receive s db t (WsInput.payload (some "chat_message") (some raw) none)).1 other,
       Effect.groupSend (GroupName.room s.room_id)
         (GEvent.broadcast_message (pyStrip raw) s.user t db.nextMsg true false)] := by
  have hother1 : get_other_user_id
      (DB.mk db.rooms
        (db.msgs ++ [ChatMessage.mk db.nextMsg s.room_id s.user (pyStrip raw) t true none false none])
        db.acts db.nextRoom (db.nextMsg + 1)) s.room_id s.user = some other := hother
  simp [receive, receive_body, hblank, save_message, hroom, hother1]

/-- C7 witness: user 1 sends " hi " in room 10; the effects are the unread
push to user 2's notification group followed by the room broadcast. -/
theorem C7_witness :
    (receive ⟨1, 10, true⟩ dbR 7 (WsInput.payload (some "chat_message") (some " hi ") none)).2 =
      [send_notification_update
         (receive ⟨1, 10, true⟩ dbR 7 (WsInput.payload (some "chat_message") (some " hi ") none)).1 2,
       Effect.groupSend (GroupName.room 10)
         (GEvent.broadcast_message (pyStrip " hi ") 1 7 dbR.nextMsg true false)] :=
  C7_notify_before_broadcast ⟨1, 10, true⟩ dbR 7 " hi " roomF 2 (by decide) (by decide)
    (by decide)

/-- No normal return of the receive body ever emits a close effect. -/
theorem receive_body_no_close (s : Session) (db : DB) (t : Time) (inp : WsInput) :
    ∀ p, receive_body s db t inp = Except.ok p → Effect.close ∉ p.2 := by
  intro p hb
  cases inp with
  | malformed => simp [receive_body] at hb
  | payload ty msg mid =>
      simp only [receive_body] at hb
      split at hb
      · split at hb
        · simp at hb
        · rename_i raw
          split at hb
          · injection hb with h; subst h; simp
          · split at hb
            · injection hb with h; subst h; simp
            · rename_i db1 newId heq
              injection hb with h; subst h
              cases ho : get_other_user_id db1 s.room_id s.user <;>
                simp [ho, send_notification_update]
      · split at hb
        · split at hb
          · injection hb with h; subst h; simp
          · rename_i m_id
            injection hb with h; subst h
            simp [send_notification_update]
        · split at hb
          · injection hb with h; subst h; simp
          · split at hb
            · injection hb with h; subst h; simp
            · injection hb with h; subst h; simp

/-- C9: event processing never closes the connection, and any event whose
handling raises (malformed JSON, missing required field) is caught at the
per-event boundary: it degrades to a no-op (store and effects untouched) and
the remaining events of the stream are processed exactly as if the failing
event had never arrived. -/
theorem C9_per_event_boundary (s : Session) (db : DB) (t : Time) (inp : WsInput)
    (rest : List (Session × WsInput × Time)) :
    Effect.close ∉ (receive s db t inp).2 ∧
    (∀ e, receive_body s db t inp = Except.error e →
      receive s db t inp = (db, []) ∧
      runEvents db ((s, inp, t) :: rest) = runEvents db rest) := by
  constructor
  · unfold receive
    cases hb : receive_body s db t inp with
    | error e => simp
    | ok p => exact receive_body_no_close s db t inp p hb
  · intro e he
    have hr : receive s db t inp = (db, []) := by
      unfold receive
      rw [he]
    exact ⟨hr, by simp [runEvents, hr]⟩

/-- C9 witness: a malformed frame on a concrete store is a no-op, closes
nothing, and a following typing event is processed as if the malformed frame
had never arrived. -/
theorem C9_witness :
    Effect.close ∉ (receive ⟨1, 10, true⟩ dbR 3 WsInput.malformed).2 ∧
    receive ⟨1, 10, true⟩ dbR 3 WsInput.malformed = (dbR, []) ∧
    runEvents dbR [(⟨1, 10, true⟩, WsInput.malformed, 3),
        (⟨1, 10, true⟩, WsInput.payload (some "typing_start") none none, 4)] =
      runEvents dbR [(⟨1, 10, true⟩, WsInput.payload (some "typing_start") none none, 4)] := by
  have h := C9_per_event_boundary ⟨1, 10, true⟩ dbR 3 WsInput.malformed
    [(⟨1, 10, true⟩, WsInput.payload (some "typing_start") none none, 4)]
  exact ⟨h.1, (h.2 "json.loads" rfl).1, (h.2 "json.loads" rfl).2⟩

/-- C10: a message_read event updates the store by setting read and read_at
on the message with the given id — for any session whatsoever: the update
does not depend on the session's user or connected room, so there is no
check that the requester is a room participant, is not the sender, or that
the message belongs to the connected room; and when the id matches no stored
message the store is unchanged while the notification refresh and the
read-receipt broadcast are still emitted. -/
theorem C10_mark_read_unchecked (s s2 : Session) (db : DB) (mid : MsgId) (t : Time) :
    ((receive s db t (WsInput.payload (some "message_read") none (some mid))).1.msgs =
       db.msgs.map (fun m =>
         if m.id == mid then { m with read := true, read_at := some t } else m)) ∧
    ((receive s db t (WsInput.payload (some "message_read") none (some mid))).1 =
       (receive s2 db t (WsInput.payload (some "message_read") none (some mid))).1) ∧
    ((∀ m ∈ db.msgs, m.id ≠ mid) →
       receive s db t (WsInput.payload (some "message_read") none (some mid)) =
         (db, [send_notification_update db s.user,
               Effect.groupSend (GroupName.room s.room_id)
                 (GEvent.message_read_update mid s.user t)])) := by
  have hred : ∀ s' : Session,
      receive s' db t (WsInput.payload (some "message_read") none (some mid)) =
        (mark_message_read db mid t,
         [send_notification_update (mark_message_read db mid t) s'.user,
          Effect.groupSend (GroupName.room s'.room_id)
            (GEvent.message_read_update mid s'.user t)]) := by
    intro s'
    simp [receive, receive_body]
  refine ⟨?_, ?_, ?_⟩
  · rw [hred]
    rfl
  · rw [hred, hred]
  · intro hno
    have hmap : db.msgs.map (fun m =>
        if m.id == mid then { m with read := true, read_at := some t } else m) = db.msgs := by
      have step : ∀ m ∈ db.msgs,
          (if m.id == mid then { m with read := true, read_at := some t } else m) = id m := by
        intro m hm
        have hne : (m.id == mid) = false := by simp [hno m hm]
        simp [hne]
      rw [List.map_congr_left step, List.map_id]
    have hmm : mark_message_read db mid t = db := by
      unfold mark_message_read
      rw [hmap]
    rw [hred, hmm]

/-- C10 witness: marking message 100 read in a concrete store works the same
for a participant session and for a completely unrelated session; marking a
nonexistent id 999 leaves the store unchanged but still pushes the refresh
and the read receipt. -/
theorem C10_witness :
    ((receive ⟨1, 10, true⟩ dbF 9 (WsInput.payload (some "message_read") none (some 100))).1.msgs =
       dbF.msgs.map (fun m =>
         if m.id == 100 then { m with read := true, read_at := some 9 } else m)) ∧
    ((receive ⟨1, 10, true⟩ dbF 9 (WsInput.payload (some "message_read") none (some 100))).1 =
       (receive ⟨42, 77, false⟩ dbF 9 (WsInput.payload (some "message_read") none (some 100))).1) ∧
    (receive ⟨1, 10, true⟩ dbF 9 (WsInput.payload (some "message_read") none (some 999)) =
       (dbF, [send_notification_update dbF 1,
              Effect.groupSend (GroupName.room 10) (GEvent.message_read_update 999 1 9)])) :=
  ⟨(C10_mark_read_unchecked ⟨1, 10, true⟩ ⟨42, 77, false⟩ dbF 100 9).1,
   (C10_mark_read_unchecked ⟨1, 10, true⟩ ⟨42, 77, false⟩ dbF 100 9).2.1,
   (C10_mark_read_unchecked ⟨1, 10, true⟩ ⟨42, 77, false⟩ dbF 999 9).2.2 (by decide)⟩

/-- A lookup whose predicate only accepts rooms pairing a and b returns
nothing on a store free of rooms pairing a and b. -/
theorem find?_none_of_pair_free (db : DB) (a b : UserId) (p : ChatRoom → Bool)
    (hp : ∀ r, p r = true → paired_room r a b = true)
    (hno : ∀ r ∈ db.rooms, paired_room r a b = false) :
    db.rooms.find? p = none := by
  rw [List.find?_eq_none]
  intro r hr hpr
  have h1 := hp r hpr
  rw [hno r hr] at h1
  exact Bool.false_ne_true h1

/-- C8: starting a chat between two distinct users with no existing room for
the unordered pair creates one room; repeating the call — in either caller
order — returns the very same room and creates nothing, so exactly one room
for the pair exists afterwards. -/
theorem C8_start_chat_dedup (db : DB) (a b : UserRec) (hne : a.id ≠ b.id)
    (hno : ∀ r ∈ db.rooms, paired_room r a.id b.id = false) :
    ∃ db1 rid,
      start_chat_with_user db a b = some (db1, rid) ∧
      start_chat_with_user db1 a b = some (db1, rid) ∧
      start_chat_with_user db1 b a = some (db1, rid) ∧
      (db1.rooms.filter (fun r => paired_room r a.id b.id)).length = 1 := by
  have hab : (a.id == b.id) = false := by simp [hne]
  have hba : (b.id == a.id) = false := by simp [Ne.symm hne]
  have hfilter : ∀ nr : ChatRoom, paired_room nr a.id b.id = true →
      ((nr :: db.rooms).filter (fun r => paired_room r a.id b.id)).length = 1 := by
    intro nr hnr
    have hdb : db.rooms.filter (fun r => paired_room r a.id b.id) = [] :=
      List.filter_eq_nil_iff.mpr (fun r hr => by simp [hno r hr])
    simp [List.filter_cons, hnr, hdb]
  by_cases h1 : (a.is_investor && !b.is_investor && !b.is_staff) = true
  · -- legitimate investor(a) ↔ entrepreneur(b) match: typed slots, canonical order
    have hb_inv : b.is_investor = false := by
      cases hbi : b.is_investor
      · rfl
      · rw [hbi] at h1; simp at h1
    have h2f : (b.is_investor && !a.is_investor && !a.is_staff) = false := by
      simp [hb_inv]
    have hlook : traditional_lookup db a.id b.id = none := by
      unfold traditional_lookup
      exact find?_none_of_pair_free db a.id b.id _
        (fun r hr => by simp [paired_room, hr]) hno
    have hl2 : traditional_lookup
        { db with rooms := (ChatRoom.mk db.nextRoom (some a.id) (some b.id) none none :: db.rooms),
                  nextRoom := db.nextRoom + 1 } a.id b.id =
        some (ChatRoom.mk db.nextRoom (some a.id) (some b.id) none none) := by
      unfold traditional_lookup
      simp [List.find?]
    refine ⟨DB.mk (ChatRoom.mk db.nextRoom (some a.id) (some b.id) none none :: db.rooms)
      db.msgs db.acts (db.nextRoom + 1) db.nextMsg, db.nextRoom, ?_, ?_, ?_, ?_⟩
    · simp [start_chat_with_user, hab, h1, get_or_create_traditional, hlook]
    · simp [start_chat_with_user, hab, h1, get_or_create_traditional, hl2]
    · simp [start_chat_with_user, hba, h2f, h1, get_or_create_traditional, hl2]
    · exact hfilter (ChatRoom.mk db.nextRoom (some a.id) (some b.id) none none)
        (by simp [paired_room])
  · by_cases h2 : (b.is_investor && !a.is_investor && !a.is_staff) = true
    · -- legitimate investor(b) ↔ entrepreneur(a) match: typed slots, canonical order
      have hlook : traditional_lookup db b.id a.id = none := by
        unfold traditional_lookup
        exact find?_none_of_pair_free db a.id b.id _
          (fun r hr => by simp [paired_room, hr]) hno
      have hl2 : traditional_lookup
          { db with rooms := (ChatRoom.mk db.nextRoom (some b.id) (some a.id) none none :: db.rooms),
                    nextRoom := db.nextRoom + 1 } b.id a.id =
          some (ChatRoom.mk db.nextRoom (some b.id) (some a.id) none none) := by
        unfold traditional_lookup
        simp [List.find?]
      refine ⟨DB.mk (ChatRoom.mk db.nextRoom (some b.id) (some a.id) none none :: db.rooms)
        db.msgs db.acts (db.nextRoom + 1) db.nextMsg, db.nextRoom, ?_, ?_, ?_, ?_⟩
      · simp [start_chat_with_user, hab, h1, h2, get_or_create_traditional, hlook]
      · simp [start_chat_with_user, hab, h1, h2, get_or_create_traditional, hl2]
      · simp [start_chat_with_user, hba, h2, get_or_create_traditional, hl2]
      · exact hfilter (ChatRoom.mk db.nextRoom (some b.id) (some a.id) none none)
          (by simp [paired_room])
    · -- any other pairing: generic slots, both orders tried on lookup
      have hlook : participant_lookup db a.id b.id = none := by
        unfold participant_lookup
        exact find?_none_of_pair_free db a.id b.id _
          (fun r hr => by simp at hr; simp [paired_room]; tauto) hno
      have hl2 : participant_lookup
          { db with rooms := (ChatRoom.mk db.nextRoom none none (some a.id) (some b.id) :: db.rooms),
                    nextRoom := db.nextRoom + 1 } a.id b.id =
          some (ChatRoom.mk db.nextRoom none none (some a.id) (some b.id)) := by
        unfold participant_lookup
        simp [List.find?]
      have hl3 : participant_lookup
          { db with rooms := (ChatRoom.mk db.nextRoom none none (some a.id) (some b.id) :: db.rooms),
                    nextRoom := db.nextRoom + 1 } b.id a.id =
          some (ChatRoom.mk db.nextRoom none none (some a.id) (some b.id)) := by
        unfold participant_lookup
        simp [List.find?]
      refine ⟨DB.mk (ChatRoom.mk db.nextRoom none none (some a.id) (some b.id) :: db.rooms)
        db.msgs db.acts (db.nextRoom + 1) db.nextMsg, db.nextRoom, ?_, ?_, ?_, ?_⟩
      · simp [start_chat_with_user, hab, h1, h2, hlook]
      · simp [start_chat_with_user, hab, h1, h2, hl2]
      · simp [start_chat_with_user, hba, h1, h2, hl3]
      · exact hfilter (ChatRoom.mk db.nextRoom none none (some a.id) (some b.id))
          (by simp [paired_room])

/-- C8 witness: investor 5 and entrepreneur 6 have no room in a store that
already holds an unrelated room; starting the chat twice in both caller
orders yields one single room. -/
theorem C8_witness :
    (5 : UserId) ≠ 6 ∧
    (∀ r ∈ dbR.rooms, paired_room r 5 6 = false) ∧
    (∃ db1 rid,
      start_chat_with_user dbR ⟨5, true, false⟩ ⟨6, false, false⟩ = some (db1, rid) ∧
      start_chat_with_user db1 ⟨5, true, false⟩ ⟨6, false, false⟩ = some (db1, rid) ∧
      start_chat_with_user db1 ⟨6, false, false⟩ ⟨5, true, false⟩ = some (db1, rid) ∧
      (db1.rooms.filter (fun r => paired_room r 5 6)).length = 1) :=
  ⟨by decide, by decide,
   C8_start_chat_dedup dbR ⟨5, true, false⟩ ⟨6, false, false⟩ (by decide) (by decide)⟩

end Chat








